import Mathlib

/-!
Verification development for the `movement` repository.

Part 1 embeds the `Verifier` trait of
`protocol-units/da/m1/light-node-verifier/src/lib.rs`: the `verify`
default method (the dispatcher) is source code, while the three strategy
methods are abstract trait members, embedded as fields of a structure.

Part 2 models the three verification strategies from the specification
(their implementations are not part of the sources), and Part 3 embeds
`Executor::bootstrap_empty_db` of
`protocol-units/execution/opt-executor/src/executor/initialization.rs`.
-/

namespace Movement

/-- `VerificationMode` from `m1_da_light_node_grpc`, a closed enumeration
of the three trust policies. -/
inductive VerificationMode where
  | Cowboy
  | ValidatorIn
  | MOfN
deriving DecidableEq, Repr

/-- `Verified<B>` from `lib.rs`: a verified outcome, either a valid
instance of `B` or invalid. -/
inductive Verified (B : Type) where
  | Valid (b : B)
  | Invalid
deriving DecidableEq, Repr

/-- The `Verifier<A, B>` trait: the three strategy methods are abstract
trait members (no default bodies in the source), so they are fields.
`E` stands for `anyhow::Error`. Heights (`u64`) are embedded as `Nat`;
they are only used as lookup keys, never arithmetically. -/
structure Verifier (A B E : Type) where
  verify_cowboy : VerificationMode → A → Nat → Except E (Verified B)
  verifiy_validator_in : VerificationMode → A → Nat → Except E (Verified B)
  verify_m_of_n : VerificationMode → A → Nat → Except E (Verified B)

/-- The default `Verifier::verify` method from `lib.rs` lines 17–30:
a match on the verification mode, forwarding all arguments. -/
def Verifier.verify {A B E : Type} (v : Verifier A B E)
    (verification_mode : VerificationMode) (blob : A) (height : Nat) :
    Except E (Verified B) :=
  match verification_mode with
  | .Cowboy => v.verify_cowboy verification_mode blob height
  | .ValidatorIn => v.verifiy_validator_in verification_mode blob height
  | .MOfN => v.verify_m_of_n verification_mode blob height

/-- The strategy that the dispatcher's match arm selects for a mode. -/
def Verifier.selectedStrategy {A B E : Type} (v : Verifier A B E) :
    VerificationMode → VerificationMode → A → Nat → Except E (Verified B)
  | .Cowboy => v.verify_cowboy
  | .ValidatorIn => v.verifiy_validator_in
  | .MOfN => v.verify_m_of_n

/-! ### Spec-modelled strategy layer

The repository declares the three strategy methods in the `Verifier`
trait but the sources contain no implementation of them (the `celestia`
module referenced by `lib.rs` is absent).  The definitions below model
the strategies from the specification (§4.2–§4.4, §6, §7). -/

/-- Modelled from the spec (§7, error taxonomy): the error variants a
verification call can surface; the implementations are missing from the
sources. `Invalid` is a verdict, not an error, and is deliberately not a
member. -/
inductive VError where
  | UnknownHeight
  | SourceUnavailable
  | Timeout
  | DecodeError
deriving DecidableEq, Repr

/-- Modelled from the spec (§3): an attestation, a
(validator identity, blob digest, signature) triple.  Identities,
digests and signatures are opaque values, embedded as `Nat`. -/
structure Attestation where
  validator : Nat
  digest : Nat
  signature : Nat
deriving DecidableEq, Repr

/-- Modelled from the spec (§3): one member of a validator set — an
identity with a public key and a voting-power weight. -/
structure ValidatorInfo where
  id : Nat
  pubkey : Nat
  power : Nat
deriving DecidableEq, Repr

/-- Modelled from the spec (§4.4): the configurable quorum rule of the
M-of-N strategy — either a fixed count threshold or a voting-power
fraction `num/den` of the total power. -/
inductive Quorum where
  | count (m : Nat)
  | weight (num den : Nat)
deriving DecidableEq, Repr

/-- Modelled from the spec (§6): the external collaborators a strategy
consults, plus the caller-supplied digest and decode/transform mappings.
`validators_at` is the Validator Directory, `attestations_for` the
Attestation Source (digest, height); `check_sig` checks an attestation's
signature against a public key. -/
structure StrategyEnv (A B : Type) where
  validators_at : Nat → Except VError (List ValidatorInfo)
  attestations_for : Nat → Nat → Except VError (List Attestation)
  digest : A → Nat
  decode : A → Except VError B
  check_sig : Attestation → Nat → Bool

/-- Modelled from the spec (§4.3 step 4): an attestation counts iff its
digest matches the blob's and its signature verifies under the matching
validator's public key from the resolved set; attestations from
identities absent from the set are discarded. -/
def attOk {A B : Type} (env : StrategyEnv A B) (vset : List ValidatorInfo)
    (d : Nat) (att : Attestation) : Bool :=
  att.digest == d &&
    vset.any (fun v => v.id == att.validator && env.check_sig att v.pubkey)

/-- Modelled from the spec (§4.2, Cowboy): always `Valid(transform(blob))`;
fails only on a decode error, reported as an error, never as `Invalid`. -/
def verify_cowboy_model {A B : Type} (env : StrategyEnv A B)
    (_verification_mode : VerificationMode) (blob : A) (_height : Nat) :
    Except VError (Verified B) :=
  match env.decode blob with
  | .ok b => .ok (.Valid b)
  | .error e => .error e

/-- Modelled from the spec (§4.3 step 5): the Validator-Membership
verdict once the validator set and the attestations are in hand —
`Valid` iff at least one attestation passes verification. -/
def validator_in_outcome {A B : Type} (env : StrategyEnv A B)
    (vset : List ValidatorInfo) (blob : A) (atts : List Attestation) :
    Except VError (Verified B) :=
  if atts.any (attOk env vset (env.digest blob)) then
    (env.decode blob).map Verified.Valid
  else
    .ok .Invalid

/-- Modelled from the spec (§4.3, Validator-Membership): resolve the
validator set for the height, fetch attestations over the blob's digest,
and return `Valid` iff at least one passes; external read failures
propagate as errors. -/
def verifiy_validator_in_model {A B : Type} (env : StrategyEnv A B)
    (_verification_mode : VerificationMode) (blob : A) (height : Nat) :
    Except VError (Verified B) := do
  let vset ← env.validators_at height
  let atts ← env.attestations_for (env.digest blob) height
  validator_in_outcome env vset blob atts

/-- Modelled from the spec (§4.4 step 5): the distinct validator
identities carrying a valid, matching attestation — deduplicated so one
identity never contributes more than one vote. -/
def tallyIds {A B : Type} (env : StrategyEnv A B) (vset : List ValidatorInfo)
    (d : Nat) (atts : List Attestation) : List Nat :=
  ((atts.filter (attOk env vset d)).map Attestation.validator).dedup

/-- Modelled from the spec (§4.4): the voting power of the set members
whose identity is among the attesting identities. -/
def powerOf (vset : List ValidatorInfo) (ids : List Nat) : Nat :=
  ((vset.filter (fun v => decide (v.id ∈ ids))).map ValidatorInfo.power).sum

/-- Modelled from the spec (§4.4): total voting power of a set. -/
def totalPower (vset : List ValidatorInfo) : Nat :=
  (vset.map ValidatorInfo.power).sum

/-- Modelled from the spec (§4.4 step 6): whether the tally meets the
configured quorum — count of distinct attesters for a count threshold,
or attesting power at least `num/den` of the total for a weight one. -/
def quorumMet {A B : Type} (env : StrategyEnv A B) (q : Quorum)
    (vset : List ValidatorInfo) (d : Nat) (atts : List Attestation) : Bool :=
  match q with
  | .count m => m ≤ (tallyIds env vset d atts).length
  | .weight num den =>
      num * totalPower vset ≤ den * powerOf vset (tallyIds env vset d atts)

/-- Modelled from the spec (§4.4 step 6): the M-of-N verdict once the
validator set and the attestations are in hand. -/
def m_of_n_outcome {A B : Type} (env : StrategyEnv A B) (q : Quorum)
    (vset : List ValidatorInfo) (blob : A) (atts : List Attestation) :
    Except VError (Verified B) :=
  if quorumMet env q vset (env.digest blob) atts then
    (env.decode blob).map Verified.Valid
  else
    .ok .Invalid

/-- Modelled from the spec (§4.4, M-of-N Threshold): resolve the
height's validator set, fetch attestations over the blob's digest, tally
the distinct valid attesters and compare to the configured quorum;
external read failures propagate as errors. -/
def verify_m_of_n_model {A B : Type} (env : StrategyEnv A B) (q : Quorum)
    (_verification_mode : VerificationMode) (blob : A) (height : Nat) :
    Except VError (Verified B) := do
  let vset ← env.validators_at height
  let atts ← env.attestations_for (env.digest blob) height
  m_of_n_outcome env q vset blob atts

/-- The spec-modelled strategies assembled into the source's `Verifier`
trait, so the source's default `verify` dispatches over them. -/
def modelVerifier {A B : Type} (env : StrategyEnv A B) (q : Quorum) :
    Verifier A B VError where
  verify_cowboy := verify_cowboy_model env
  verifiy_validator_in := verifiy_validator_in_model env
  verify_m_of_n := verify_m_of_n_model env q

/-! ### Executor initialization

Embedding of `Executor::genesis_change_set_and_validators` and
`Executor::bootstrap_empty_db` from
`protocol-units/execution/opt-executor/src/executor/initialization.rs`.
The Aptos library calls (`TestValidator::new_test_set`,
`encode_genesis_change_set`, `AptosDB::new_for_test`,
`generate_waypoint`, `maybe_bootstrap`, the DB reader) are external
dependencies, abstracted as fields of an environment; the DB's interior
mutability becomes explicit state passing (`maybe_bootstrap` returns the
updated DB). Addresses, keys, chain ids and the opaque Aptos values are
embedded as `Nat`; a Rust `panic` (a failed `assert!` or an
out-of-bounds index) is embedded as a distinguished `Except.error`. -/

/-- `TestValidator::data` (`aptos_vm_genesis::Validator`): only the
`owner_address` field is read by the sources. -/
structure ValidatorData where
  owner_address : Nat
deriving DecidableEq, Repr

/-- `aptos_vm_genesis::TestValidator`: genesis validator data plus the
consensus key. -/
structure TestValidator where
  data : ValidatorData
  consensus_key : Nat
deriving DecidableEq, Repr

/-- `aptos_types::validator_signer::ValidatorSigner`. -/
structure ValidatorSigner where
  author : Nat
  private_key : Nat
deriving DecidableEq, Repr

/-- `ValidatorSigner::new(owner_address, consensus_key)`. -/
def ValidatorSigner.new (author : Nat) (private_key : Nat) : ValidatorSigner :=
  ⟨author, private_key⟩

/-- `aptos_vm_genesis::GenesisConfiguration`, the fields the source
sets (the three `override` fields are opaque options). -/
structure GenesisConfiguration where
  allow_new_validators : Bool
  epoch_duration_secs : Nat
  is_test : Bool
  min_stake : Nat
  min_voting_threshold : Nat
  max_stake : Nat
  recurring_lockup_duration_secs : Nat
  required_proposer_stake : Nat
  rewards_apy_percentage : Nat
  voting_duration_secs : Nat
  voting_power_increase_limit : Nat
  employee_vesting_start : Nat
  employee_vesting_period_duration : Nat
  initial_features_override : Option Nat
  randomness_config_override : Option Nat
  jwk_consensus_config_override : Option Nat
deriving DecidableEq, Repr

/-- `WriteSetPayload` restricted to the variant the source builds. -/
inductive WriteSetPayload (CS : Type) where
  | Direct (change_set : CS)
deriving DecidableEq, Repr

/-- `Transaction` restricted to the variant the source builds. -/
inductive Transaction (CS : Type) where
  | GenesisTransaction (payload : WriteSetPayload CS)
deriving DecidableEq, Repr

/-- The external Aptos operations `initialization.rs` calls, over
abstract types for the DB handle (`Db`), change set (`CS`), waypoint
(`WP`), ledger info (`LI`) and `maybe_bootstrap`'s success payload
(`R`). `maybe_bootstrap` returns the updated DB alongside its result;
the reads before and after bootstrapping see the respective DB states. -/
structure ExecEnv (Db CS WP LI R : Type) where
  head_release_bundle : Nat
  new_test_set : Option Nat → Option Nat → List TestValidator
  encode_genesis_change_set :
    Nat → List ValidatorData → Nat → Nat → GenesisConfiguration →
    Nat → Nat → Nat → CS
  default_consensus_config : Nat
  default_execution_config : Nat
  default_gas_schedule : Nat
  new_for_test : String → Db
  get_latest_ledger_info_option : Db → Except String (Option LI)
  generate_waypoint : Db → Transaction CS → Except String WP
  maybe_bootstrap : Db → Transaction CS → WP → Except String (Option R × Db)

/-- The distinguished error a failed Rust `assert!` or an out-of-bounds
index becomes in this embedding. -/
def panicError : String := "panic"

namespace Executor

/-- `Executor::genesis_change_set_and_validators` (initialization.rs
lines 29–70): build the test validator set and encode the genesis
change set with the hardcoded `GenesisConfiguration`. -/
def genesis_change_set_and_validators {Db CS WP LI R : Type}
    (env : ExecEnv Db CS WP LI R) (chain_id : Nat) (count : Option Nat)
    (public_key : Nat) : CS × List TestValidator :=
  let framework := env.head_release_bundle
  let test_validators := env.new_test_set count (some 100000000)
  let validators_ := test_validators.map TestValidator.data
  let epoch_duration_secs := 60 * 60 * 24 * 1024 * 8
  let genesis := env.encode_genesis_change_set public_key validators_
    framework chain_id
    { allow_new_validators := true
      epoch_duration_secs := epoch_duration_secs
      is_test := true
      min_stake := 0
      min_voting_threshold := 0
      max_stake := 100000000000000
      recurring_lockup_duration_secs := epoch_duration_secs * 2
      required_proposer_stake := 0
      rewards_apy_percentage := 10
      voting_duration_secs := epoch_duration_secs
      voting_power_increase_limit := 50
      employee_vesting_start := 1663456089
      employee_vesting_period_duration := 5 * 60
      initial_features_override := none
      randomness_config_override := none
      jwk_consensus_config_override := none }
    env.default_consensus_config env.default_execution_config
    env.default_gas_schedule
  (genesis, test_validators)

/-- `Executor::bootstrap_empty_db` (initialization.rs lines 72–96):
genesis with a fixed validator count of `Some(1)`, bootstrap the empty
DB, and build the signer from the first validator's owner address and
consensus key. `maybe_bootstrap` returning `None` produces the
`"Failed to bootstrap DB"` error. -/
def bootstrap_empty_db {Db CS WP LI R : Type}
    (env : ExecEnv Db CS WP LI R) (db_dir : String) (chain_id : Nat)
    (public_key : Nat) : Except String (Db × ValidatorSigner) := do
  let (genesis, validators) :=
    genesis_change_set_and_validators env chain_id (some 1) public_key
  let genesis_txn := Transaction.GenesisTransaction (.Direct genesis)
  let db_rw := env.new_for_test db_dir
  let li0 ← env.get_latest_ledger_info_option db_rw
  if li0.isNone = false then Except.error panicError else do
  let waypoint ← env.generate_waypoint db_rw genesis_txn
  let (bootstrapped, db_rw') ← env.maybe_bootstrap db_rw genesis_txn waypoint
  match bootstrapped with
  | none => Except.error "Failed to bootstrap DB"
  | some _ => do
    let li1 ← env.get_latest_ledger_info_option db_rw'
    if li1.isSome = false then Except.error panicError else
    match validators with
    | [] => Except.error panicError
    | v0 :: _ =>
      Except.ok (db_rw', ValidatorSigner.new v0.data.owner_address
        v0.consensus_key)

end Executor

/-! ### Concrete instances

Small closed environments on which the theorems below are exercised. -/

/-- A validator with identity 1. -/
def vA : ValidatorInfo := ⟨1, 101, 10⟩

/-- A validator with identity 2. -/
def vB : ValidatorInfo := ⟨2, 102, 10⟩

/-- A validator with identity 3. -/
def vC : ValidatorInfo := ⟨3, 103, 10⟩

/-- A validator with identity 4. -/
def vD : ValidatorInfo := ⟨4, 104, 10⟩

/-- A validator with identity 5. -/
def vE : ValidatorInfo := ⟨5, 105, 10⟩

/-- A validator with identity 6. -/
def vF : ValidatorInfo := ⟨6, 106, 10⟩

/-- An attestation by validator 1 over digest 0. -/
def attA : Attestation := ⟨1, 0, 900⟩

/-- An attestation by validator 2 over digest 0. -/
def attB : Attestation := ⟨2, 0, 901⟩

/-- A second, distinct attestation by validator 1 over digest 0. -/
def attA2 : Attestation := ⟨1, 0, 902⟩

/-- An environment whose Validator Directory has no set for any height. -/
def exEnvNoSet : StrategyEnv Nat Nat where
  validators_at := fun _ => .error .UnknownHeight
  attestations_for := fun _ _ => .ok []
  digest := fun a => a
  decode := fun a => .ok a
  check_sig := fun _ _ => true

/-- An environment whose Validator Directory is unreachable. -/
def exEnvDown : StrategyEnv Nat Nat where
  validators_at := fun _ => .error .SourceUnavailable
  attestations_for := fun _ _ => .ok []
  digest := fun a => a
  decode := fun a => .ok a
  check_sig := fun _ _ => true

/-- Validator set {1,2,3}; one attestation, by validator 1. -/
def exEnvOne : StrategyEnv Nat Nat where
  validators_at := fun _ => .ok [vA, vB, vC]
  attestations_for := fun _ _ => .ok [attA]
  digest := fun a => a
  decode := fun a => .ok a
  check_sig := fun _ _ => true

/-- Validator set {1,2,3}; attestations by validators 1 and 2. -/
def exEnvTwo : StrategyEnv Nat Nat where
  validators_at := fun _ => .ok [vA, vB, vC]
  attestations_for := fun _ _ => .ok [attA, attB]
  digest := fun a => a
  decode := fun a => .ok a
  check_sig := fun _ _ => true

/-- Like `exEnvTwo` at height 5, but every other height is unknown and
the attestation list is only served for digest 0 at height 5. -/
def exEnvTwoAlt : StrategyEnv Nat Nat where
  validators_at := fun height =>
    if height == 5 then .ok [vA, vB, vC] else .error .UnknownHeight
  attestations_for := fun d height =>
    if d == 0 && height == 5 then .ok [attA, attB]
    else .error .SourceUnavailable
  digest := fun a => a
  decode := fun a => .ok a
  check_sig := fun _ _ => true

/-- Validator set {1,2,3}; two attestations by the same validator 1. -/
def exEnvDup : StrategyEnv Nat Nat where
  validators_at := fun _ => .ok [vA, vB, vC]
  attestations_for := fun _ _ => .ok [attA, attA2]
  digest := fun a => a
  decode := fun a => .ok a
  check_sig := fun _ _ => true

/-- Height 1 has validator set {1,2,3}, height 2 has {4,5,6}; the
observed attestations are by validators 1 and 2 at every height. -/
def exEnvHeights : StrategyEnv Nat Nat where
  validators_at := fun height =>
    if height == 1 then .ok [vA, vB, vC]
    else if height == 2 then .ok [vD, vE, vF]
    else .error .UnknownHeight
  attestations_for := fun _ _ => .ok [attA, attB]
  digest := fun a => a
  decode := fun a => .ok a
  check_sig := fun _ _ => true

/-- A failing decode environment for the Cowboy strategy. -/
def exEnvBadBlob : StrategyEnv Nat Nat where
  validators_at := fun _ => .ok [vA]
  attestations_for := fun _ _ => .ok []
  digest := fun a => a
  decode := fun a => if a == 99 then .error .DecodeError else .ok a
  check_sig := fun _ _ => true

/-- The genesis transaction `bootstrap_empty_db` builds before touching
the DB (validator count fixed at `some 1`). -/
def genesisTxn {Db CS WP LI R : Type} (env : ExecEnv Db CS WP LI R)
    (chain_id : Nat) (public_key : Nat) : Transaction CS :=
  Transaction.GenesisTransaction
    (.Direct (Executor.genesis_change_set_and_validators env chain_id
      (some 1) public_key).1)

/-- A concrete executor environment whose `maybe_bootstrap` yields no
ledger info. -/
def exExecEnvNoLedger : ExecEnv Nat Nat Nat Nat Nat where
  head_release_bundle := 0
  new_test_set := fun count _ =>
    List.replicate (count.getD 10) ⟨⟨7⟩, 8⟩
  encode_genesis_change_set := fun _ _ _ _ _ _ _ _ => 0
  default_consensus_config := 0
  default_execution_config := 0
  default_gas_schedule := 0
  new_for_test := fun _ => 0
  get_latest_ledger_info_option := fun db =>
    .ok (if db == 0 then none else some 0)
  generate_waypoint := fun _ _ => .ok 0
  maybe_bootstrap := fun _ _ _ => .ok (none, 1)

/-- A concrete executor environment that bootstraps successfully. -/
def exExecEnvOk : ExecEnv Nat Nat Nat Nat Nat where
  head_release_bundle := 0
  new_test_set := fun count _ =>
    List.replicate (count.getD 10) ⟨⟨7⟩, 8⟩
  encode_genesis_change_set := fun _ _ _ _ _ _ _ _ => 0
  default_consensus_config := 0
  default_execution_config := 0
  default_gas_schedule := 0
  new_for_test := fun _ => 0
  get_latest_ledger_info_option := fun db =>
    .ok (if db == 0 then none else some 0)
  generate_waypoint := fun _ _ => .ok 0
  maybe_bootstrap := fun _ _ _ => .ok (some 0, 1)

/-! ### Theorems -/

/-- C1: for every verification mode, blob and height, the dispatcher's
`verify` returns exactly the result of the one strategy operation its
match arm selects for that mode (`Cowboy` to `verify_cowboy`,
`ValidatorIn` to `verifiy_validator_in`, `MOfN` to `verify_m_of_n`),
applied to the same arguments, with no wrapping or reinterpretation of
the strategy's result or error. -/
theorem verify_is_pure_dispatch {A B E : Type} (v : Verifier A B E)
    (mode : VerificationMode) (blob : A) (height : Nat) :
    v.verify mode blob height = v.selectedStrategy mode mode blob height := by
  cases mode <;> rfl

/-- C9: the default `verify` forwards its arguments unchanged — the
strategy it invokes receives the very mode, blob and height `verify`
received, the mode each strategy receives equals the variant it was
dispatched on, and the match over `VerificationMode` is exhaustive, so
every mode value is routed. -/
theorem verify_forwards_arguments {A B E : Type} (v : Verifier A B E)
    (blob : A) (height : Nat) :
    v.verify .Cowboy blob height = v.verify_cowboy .Cowboy blob height ∧
    v.verify .ValidatorIn blob height =
      v.verifiy_validator_in .ValidatorIn blob height ∧
    v.verify .MOfN blob height = v.verify_m_of_n .MOfN blob height ∧
    ∀ mode : VerificationMode,
      mode = .Cowboy ∨ mode = .ValidatorIn ∨ mode = .MOfN := by
  refine ⟨rfl, rfl, rfl, fun mode => ?_⟩
  cases mode
  · exact Or.inl rfl
  · exact Or.inr (Or.inl rfl)
  · exact Or.inr (Or.inr rfl)

/-- C2: verification in `Cowboy` mode never returns `Invalid`: a
decodable blob yields `Valid (transform blob)`, a non-decodable blob
yields the decode error as an error, and the `Invalid` verdict is
unreachable for every blob. -/
theorem cowboy_never_invalid {A B : Type} (env : StrategyEnv A B)
    (q : Quorum) (blob : A) (height : Nat) :
    (∀ b, env.decode blob = .ok b →
      (modelVerifier env q).verify .Cowboy blob height = .ok (.Valid b)) ∧
    (∀ e, env.decode blob = .error e →
      (modelVerifier env q).verify .Cowboy blob height = .error e) ∧
    (modelVerifier env q).verify .Cowboy blob height ≠ .ok .Invalid := by
  refine ⟨?_, ?_, ?_⟩
  · intro b hb
    simp [Verifier.verify, modelVerifier, verify_cowboy_model, hb]
  · intro e he
    simp [Verifier.verify, modelVerifier, verify_cowboy_model, he]
  · cases hd : env.decode blob <;>
      simp [Verifier.verify, modelVerifier, verify_cowboy_model, hd]

/-- C3: when the Validator Directory has no set for the height, every
mode other than `Cowboy` (namely `ValidatorIn` and `MOfN`) returns the
`UnknownHeight` error, not a `Valid` or `Invalid` verdict. -/
theorem unknown_height_propagates {A B : Type} (env : StrategyEnv A B)
    (q : Quorum) (blob : A) (height : Nat)
    (hdir : env.validators_at height = .error .UnknownHeight) :
    (modelVerifier env q).verify .ValidatorIn blob height =
      .error .UnknownHeight ∧
    (modelVerifier env q).verify .MOfN blob height =
      .error .UnknownHeight := by
  constructor <;>
    simp [Verifier.verify, modelVerifier, verifiy_validator_in_model,
      verify_m_of_n_model, hdir, bind, Except.bind]

/-- Witness for C3: a directory with no set for height 7. -/
theorem unknown_height_propagates_witness :
    (modelVerifier exEnvNoSet (.count 2)).verify .ValidatorIn 0 7 =
      .error .UnknownHeight ∧
    (modelVerifier exEnvNoSet (.count 2)).verify .MOfN 0 7 =
      .error .UnknownHeight :=
  unknown_height_propagates exEnvNoSet (.count 2) 0 7 rfl

/-- An attestation counts iff its digest matches and some member of the
set carries its identity and validates its signature. -/
theorem attOk_eq_true_iff {A B : Type} (env : StrategyEnv A B)
    (vset : List ValidatorInfo) (d : Nat) (att : Attestation) :
    attOk env vset d att = true ↔
      att.digest = d ∧ ∃ v ∈ vset, v.id = att.validator ∧
        env.check_sig att v.pubkey = true := by
  simp [attOk, List.any_eq_true, Bool.and_eq_true, beq_iff_eq]

/-- An attestation from an identity absent from the set never counts. -/
theorem attOk_of_absent {A B : Type} (env : StrategyEnv A B)
    (vset : List ValidatorInfo) (d : Nat) (att : Attestation)
    (habs : att.validator ∉ vset.map ValidatorInfo.id) :
    attOk env vset d att = false := by
  rw [Bool.eq_false_iff]
  intro htrue
  rcases (attOk_eq_true_iff env vset d att).mp htrue with ⟨-, v, hvmem, hid, -⟩
  exact habs (List.mem_map.mpr ⟨v, hvmem, hid⟩)

/-- C4: with a known validator set, the Validator-Membership strategy
returns `Valid` iff at least one attestation over the blob's digest
verifies against a validator of that height's set; with zero such
attestations it returns `Invalid` (not an error); and an attestation
from an identity absent from the set never changes the verdict. -/
theorem validator_in_verdict {A B : Type} (env : StrategyEnv A B)
    (q : Quorum) (blob : A) (height : Nat) (vset : List ValidatorInfo)
    (atts : List Attestation) (b : B)
    (hv : env.validators_at height = .ok vset)
    (ha : env.attestations_for (env.digest blob) height = .ok atts)
    (hb : env.decode blob = .ok b) :
    ((modelVerifier env q).verify .ValidatorIn blob height =
        .ok (.Valid b) ↔
      ∃ att ∈ atts, att.digest = env.digest blob ∧
        ∃ v ∈ vset, v.id = att.validator ∧
          env.check_sig att v.pubkey = true) ∧
    ((¬ ∃ att ∈ atts, att.digest = env.digest blob ∧
        ∃ v ∈ vset, v.id = att.validator ∧
          env.check_sig att v.pubkey = true) →
      (modelVerifier env q).verify .ValidatorIn blob height =
        .ok .Invalid) ∧
    (∀ att0 : Attestation, att0.validator ∉ vset.map ValidatorInfo.id →
      validator_in_outcome env vset blob (att0 :: atts) =
        validator_in_outcome env vset blob atts) := by
  have hver : (modelVerifier env q).verify .ValidatorIn blob height =
      validator_in_outcome env vset blob atts := by
    simp [Verifier.verify, modelVerifier, verifiy_validator_in_model,
      hv, ha, bind, Except.bind]
  have hiff : atts.any (attOk env vset (env.digest blob)) = true ↔
      ∃ att ∈ atts, att.digest = env.digest blob ∧
        ∃ v ∈ vset, v.id = att.validator ∧
          env.check_sig att v.pubkey = true := by
    simp [List.any_eq_true, attOk_eq_true_iff]
  refine ⟨?_, ?_, ?_⟩
  · rw [hver, ← hiff]
    cases hany : atts.any (attOk env vset (env.digest blob)) <;>
      simp [validator_in_outcome, hany, hb, Except.map]
  · intro hnone
    rw [hver]
    have hany : atts.any (attOk env vset (env.digest blob)) = false := by
      rw [Bool.eq_false_iff]
      intro htrue
      exact hnone (hiff.mp htrue)
    simp [validator_in_outcome, hany]
  · intro att0 h0
    simp [validator_in_outcome, List.any_cons,
      attOk_of_absent env vset (env.digest blob) att0 h0]

/-- Witness for C4: one matching attestation by validator 1 against the
set {1,2,3} yields `Valid`. -/
theorem validator_in_verdict_witness :
    (modelVerifier exEnvOne (.count 2)).verify .ValidatorIn 0 5 =
      .ok (.Valid 0) :=
  (validator_in_verdict exEnvOne (.count 2) 0 5 [vA, vB, vC] [attA] 0
    rfl rfl rfl).1.mpr (by decide)

/-- C5: M-of-N with count threshold M=2 over the 3-validator set
{1,2,3}: two valid attestations from distinct validators yield `Valid`,
a single valid attestation yields `Invalid`, and two attestations from
the same validator yield `Invalid` — the tally deduplicates by
validator identity. -/
theorem m_of_n_two_of_three :
    (modelVerifier exEnvTwo (.count 2)).verify .MOfN 0 5 =
      .ok (.Valid 0) ∧
    (modelVerifier exEnvOne (.count 2)).verify .MOfN 0 5 =
      .ok .Invalid ∧
    (modelVerifier exEnvDup (.count 2)).verify .MOfN 0 5 =
      .ok .Invalid :=
  ⟨rfl, rfl, rfl⟩

/-- `attOk` depends on the environment only through the signature
checker and the blob's digest. -/
theorem attOk_env_congr {A B : Type} (env1 env2 : StrategyEnv A B)
    (vset : List ValidatorInfo) (blob : A)
    (hsig : env1.check_sig = env2.check_sig)
    (hdig : env1.digest blob = env2.digest blob) :
    attOk env1 vset (env1.digest blob) = attOk env2 vset (env2.digest blob) := by
  funext att
  simp only [attOk, hsig, hdig]

/-- `m_of_n_outcome` depends on the environment only through the
signature checker, the blob's digest and the decode mapping. -/
theorem m_of_n_outcome_env_congr {A B : Type} (env1 env2 : StrategyEnv A B)
    (q : Quorum) (vset : List ValidatorInfo) (blob : A)
    (atts : List Attestation)
    (hsig : env1.check_sig = env2.check_sig)
    (hdig : env1.digest blob = env2.digest blob)
    (hdec : env1.decode blob = env2.decode blob) :
    m_of_n_outcome env1 q vset blob atts =
      m_of_n_outcome env2 q vset blob atts := by
  have hAtt := attOk_env_congr env1 env2 vset blob hsig hdig
  rw [hdig] at hAtt
  cases q with
  | count m => simp only [m_of_n_outcome, quorumMet, tallyIds, hAtt, hdig, hdec]
  | weight num den =>
      simp only [m_of_n_outcome, quorumMet, tallyIds, hAtt, hdig, hdec]

/-- Permuting the attestation list permutes the tallied identities. -/
theorem tallyIds_perm {A B : Type} (env : StrategyEnv A B)
    (vset : List ValidatorInfo) (d : Nat) {atts1 atts2 : List Attestation}
    (hp : atts1.Perm atts2) :
    (tallyIds env vset d atts1).Perm (tallyIds env vset d atts2) :=
  ((hp.filter (attOk env vset d)).map Attestation.validator).dedup

/-- The attesting power only depends on which identities attested. -/
theorem powerOf_perm (vset : List ValidatorInfo) {ids1 ids2 : List Nat}
    (hp : ids1.Perm ids2) : powerOf vset ids1 = powerOf vset ids2 := by
  have hfun : (fun v : ValidatorInfo => decide (v.id ∈ ids1)) =
      fun v : ValidatorInfo => decide (v.id ∈ ids2) := by
    funext v
    simp only [decide_eq_decide]
    exact hp.mem_iff
  rw [powerOf, powerOf, hfun]

/-- The quorum decision is invariant under permuting the attestations. -/
theorem quorumMet_perm {A B : Type} (env : StrategyEnv A B) (q : Quorum)
    (vset : List ValidatorInfo) (d : Nat) {atts1 atts2 : List Attestation}
    (hp : atts1.Perm atts2) :
    quorumMet env q vset d atts1 = quorumMet env q vset d atts2 := by
  have ht := tallyIds_perm env vset d hp
  cases q with
  | count m => simp [quorumMet, ht.length_eq]
  | weight num den => simp [quorumMet, powerOf_perm vset ht]

/-- The M-of-N verdict is invariant under permuting the attestations. -/
theorem m_of_n_outcome_perm {A B : Type} (env : StrategyEnv A B)
    (q : Quorum) (vset : List ValidatorInfo) (blob : A)
    {atts1 atts2 : List Attestation} (hp : atts1.Perm atts2) :
    m_of_n_outcome env q vset blob atts1 =
      m_of_n_outcome env q vset blob atts2 := by
  simp [m_of_n_outcome, quorumMet_perm env q vset (env.digest blob) hp]

/-- C6: M-of-N is deterministic — two verify calls in `MOfN` mode over
the same frozen inputs (same signature checker, digest and decode for
the blob, same validator set at the height, same attestations for the
digest at the height) produce the same result even when everything else
about the two environments differs; and the verdict is invariant under
reordering the observed attestation collection, so it depends only on
the set of attestations. -/
theorem m_of_n_deterministic {A B : Type} (env1 env2 : StrategyEnv A B)
    (q : Quorum) (blob : A) (height : Nat)
    (hsig : env1.check_sig = env2.check_sig)
    (hdig : env1.digest blob = env2.digest blob)
    (hdec : env1.decode blob = env2.decode blob)
    (hval : env1.validators_at height = env2.validators_at height)
    (hatt : env1.attestations_for (env1.digest blob) height =
      env2.attestations_for (env2.digest blob) height) :
    (modelVerifier env1 q).verify .MOfN blob height =
      (modelVerifier env2 q).verify .MOfN blob height ∧
    (∀ (vset : List ValidatorInfo) (atts1 atts2 : List Attestation),
      atts1.Perm atts2 →
        m_of_n_outcome env1 q vset blob atts1 =
          m_of_n_outcome env1 q vset blob atts2) := by
  constructor
  · have hatt' : env1.attestations_for (env2.digest blob) height =
        env2.attestations_for (env2.digest blob) height := by
      rw [← hdig] at hatt ⊢; exact hatt
    have houtcome : ∀ (vset : List ValidatorInfo) (atts : List Attestation),
        m_of_n_outcome env1 q vset blob atts =
          m_of_n_outcome env2 q vset blob atts :=
      fun vset atts =>
        m_of_n_outcome_env_congr env1 env2 q vset blob atts hsig hdig hdec
    simp only [Verifier.verify, modelVerifier, verify_m_of_n_model, hdig,
      hval, hatt', houtcome]
  · exact fun vset atts1 atts2 hp => m_of_n_outcome_perm env1 q vset blob hp

/-- Witness for C6: two environments that agree at height 5 on digest 0
but differ everywhere else give the same verdict. -/
theorem m_of_n_deterministic_witness :
    (modelVerifier exEnvTwo (.count 2)).verify .MOfN 0 5 =
      (modelVerifier exEnvTwoAlt (.count 2)).verify .MOfN 0 5 ∧
    (∀ (vset : List ValidatorInfo) (atts1 atts2 : List Attestation),
      atts1.Perm atts2 →
        m_of_n_outcome exEnvTwo (.count 2) vset 0 atts1 =
          m_of_n_outcome exEnvTwo (.count 2) vset 0 atts2) :=
  m_of_n_deterministic exEnvTwo exEnvTwoAlt (.count 2) 0 5 rfl rfl rfl rfl rfl

/-- C7: in either mode that performs external reads (`ValidatorIn` and
`MOfN`), a Validator Directory failure or an Attestation Source failure
propagates to the caller as that error, and the `Invalid` verdict can
only arise when both reads succeeded — an error is never absorbed into
`Invalid`. -/
theorem read_failures_propagate {A B : Type} (env : StrategyEnv A B)
    (q : Quorum) (blob : A) (height : Nat) (mode : VerificationMode)
    (hm : mode = .ValidatorIn ∨ mode = .MOfN) :
    (∀ e, env.validators_at height = .error e →
      (modelVerifier env q).verify mode blob height = .error e) ∧
    (∀ e vset, env.validators_at height = .ok vset →
      env.attestations_for (env.digest blob) height = .error e →
      (modelVerifier env q).verify mode blob height = .error e) ∧
    ((modelVerifier env q).verify mode blob height = .ok .Invalid →
      ∃ vset atts, env.validators_at height = .ok vset ∧
        env.attestations_for (env.digest blob) height = .ok atts) := by
  rcases hm with rfl | rfl
  · refine ⟨?_, ?_, ?_⟩
    · intro e he
      simp [Verifier.verify, modelVerifier, verifiy_validator_in_model,
        bind, Except.bind, he]
    · intro e vset hv hafail
      simp [Verifier.verify, modelVerifier, verifiy_validator_in_model,
        bind, Except.bind, hv, hafail]
    · intro hinv
      cases hv : env.validators_at height with
      | error e =>
          simp [Verifier.verify, modelVerifier, verifiy_validator_in_model,
            bind, Except.bind, hv] at hinv
      | ok vset =>
          cases hatt : env.attestations_for (env.digest blob) height with
          | error e =>
              simp [Verifier.verify, modelVerifier,
                verifiy_validator_in_model, bind, Except.bind, hv, hatt]
                at hinv
          | ok atts => exact ⟨vset, atts, rfl, rfl⟩
  · refine ⟨?_, ?_, ?_⟩
    · intro e he
      simp [Verifier.verify, modelVerifier, verify_m_of_n_model,
        bind, Except.bind, he]
    · intro e vset hv hafail
      simp [Verifier.verify, modelVerifier, verify_m_of_n_model,
        bind, Except.bind, hv, hafail]
    · intro hinv
      cases hv : env.validators_at height with
      | error e =>
          simp [Verifier.verify, modelVerifier, verify_m_of_n_model,
            bind, Except.bind, hv] at hinv
      | ok vset =>
          cases hatt : env.attestations_for (env.digest blob) height with
          | error e =>
              simp [Verifier.verify, modelVerifier, verify_m_of_n_model,
                bind, Except.bind, hv, hatt] at hinv
          | ok atts => exact ⟨vset, atts, rfl, rfl⟩

/-- Witness for C7: an unreachable Validator Directory surfaces
`SourceUnavailable` in `ValidatorIn` mode. -/
theorem read_failures_propagate_witness :
    (modelVerifier exEnvDown (.count 2)).verify .ValidatorIn 0 3 =
      .error .SourceUnavailable :=
  (read_failures_propagate exEnvDown (.count 2) 0 3 .ValidatorIn
    (Or.inl rfl)).1 .SourceUnavailable rfl

/-- C8: M-of-N verification is height-sensitive — with the same blob
and the same observed attestations at two heights whose validator sets
differ, a quorum of height `h1`'s set but not of height `h2`'s set
yields `Valid` at `h1` and `Invalid` at `h2`; the strategy uses the set
resolved for the requested height. -/
theorem m_of_n_height_sensitive {A B : Type} (env : StrategyEnv A B)
    (q : Quorum) (blob : A) (h1 h2 : Nat)
    (vs1 vs2 : List ValidatorInfo) (atts : List Attestation) (b : B)
    (hv1 : env.validators_at h1 = .ok vs1)
    (hv2 : env.validators_at h2 = .ok vs2)
    (ha1 : env.attestations_for (env.digest blob) h1 = .ok atts)
    (ha2 : env.attestations_for (env.digest blob) h2 = .ok atts)
    (hb : env.decode blob = .ok b)
    (hq1 : quorumMet env q vs1 (env.digest blob) atts = true)
    (hq2 : quorumMet env q vs2 (env.digest blob) atts = false) :
    (modelVerifier env q).verify .MOfN blob h1 = .ok (.Valid b) ∧
    (modelVerifier env q).verify .MOfN blob h2 = .ok .Invalid := by
  constructor
  · simp [Verifier.verify, modelVerifier, verify_m_of_n_model, bind,
      Except.bind, hv1, ha1, m_of_n_outcome, hq1, hb, Except.map]
  · simp [Verifier.verify, modelVerifier, verify_m_of_n_model, bind,
      Except.bind, hv2, ha2, m_of_n_outcome, hq2]

/-- Witness for C8: attestations by validators 1 and 2 form a 2-of-3
quorum of height 1's set {1,2,3} but not of height 2's set {4,5,6}. -/
theorem m_of_n_height_sensitive_witness :
    (modelVerifier exEnvHeights (.count 2)).verify .MOfN 0 1 =
      .ok (.Valid 0) ∧
    (modelVerifier exEnvHeights (.count 2)).verify .MOfN 0 2 =
      .ok .Invalid :=
  m_of_n_height_sensitive exEnvHeights (.count 2) 0 1 2 [vA, vB, vC]
    [vD, vE, vF] [attA, attB] 0 rfl rfl rfl rfl rfl rfl rfl

/-- C10: when `bootstrap_empty_db` succeeds, the genesis was built from
the test validator set of size fixed at `some 1` (for every caller
input), so — given that `new_test_set` honours the requested count —
there is exactly one test validator, and the returned signer is built
from that validator's owner address and consensus key; and when the
bootstrap step yields no ledger info, the call returns the
`"Failed to bootstrap DB"` error. -/
theorem bootstrap_empty_db_spec {Db CS WP LI R : Type}
    (env : ExecEnv Db CS WP LI R) (db_dir : String) (chain_id : Nat)
    (public_key : Nat)
    (hcount : (env.new_test_set (some 1) (some 100000000)).length = 1) :
    (∀ db signer,
      Executor.bootstrap_empty_db env db_dir chain_id public_key =
        .ok (db, signer) →
      ∃ v0, env.new_test_set (some 1) (some 100000000) = [v0] ∧
        signer =
          ValidatorSigner.new v0.data.owner_address v0.consensus_key) ∧
    (∀ wp db2,
      env.get_latest_ledger_info_option (env.new_for_test db_dir) =
        .ok none →
      env.generate_waypoint (env.new_for_test db_dir)
        (genesisTxn env chain_id public_key) = .ok wp →
      env.maybe_bootstrap (env.new_for_test db_dir)
        (genesisTxn env chain_id public_key) wp = .ok (none, db2) →
      Executor.bootstrap_empty_db env db_dir chain_id public_key =
        .error "Failed to bootstrap DB") := by
  obtain ⟨v0, hv0⟩ := List.length_eq_one.mp hcount
  constructor
  · intro db signer hok
    refine ⟨v0, hv0, ?_⟩
    simp only [Executor.bootstrap_empty_db,
      Executor.genesis_change_set_and_validators, hv0, bind,
      Except.bind] at hok
    repeat' split at hok
    all_goals simp_all
  · intro wp db2 hli hwp hmb
    simp only [genesisTxn, Executor.genesis_change_set_and_validators]
      at hwp hmb
    simp only [Executor.bootstrap_empty_db,
      Executor.genesis_change_set_and_validators, bind, Except.bind,
      hli, hwp, hmb]
    simp

/-- Witness for C10: a successful bootstrap yields the signer of the
single test validator, and a bootstrap yielding no ledger info fails
with the dedicated error. -/
theorem bootstrap_empty_db_spec_witness :
    (∃ v0, exExecEnvOk.new_test_set (some 1) (some 100000000) = [v0] ∧
      ValidatorSigner.new 7 8 =
        ValidatorSigner.new v0.data.owner_address v0.consensus_key) ∧
    Executor.bootstrap_empty_db exExecEnvNoLedger "dir" 4 9 =
      .error "Failed to bootstrap DB" :=
  ⟨(bootstrap_empty_db_spec exExecEnvOk "dir" 4 9 rfl).1 1
      (ValidatorSigner.new 7 8) rfl,
    (bootstrap_empty_db_spec exExecEnvNoLedger "dir" 4 9 rfl).2 0 1
      rfl rfl rfl⟩

end Movement
